import Mathlib

/-!
Verification development for the rTC load-testing tool.

The tool (src/rtc.go and src/main.go) is a load generator driving a remote
queue-management controller over TCP.  src/rtc.go contains two evolutions of
the protocol client separated by a document marker; the second (later)
evolution, which owns closeConnection and the nil-message checks, is embedded
here; the first evolution differs only in details noted at the relevant
definitions.

Modelling conventions:
- Go errors are modelled by their message strings (GoErr); a nil error is
  none, a non-nil error is some msg.
- Timestamps appended to a timing record are opaque strings in Go.  A record
  cell is embedded as Cell: Cell.nowT stands for a time.Now().String()
  value, Cell.zeroT for a zero-value timestamp (what the empty time.Time
  renders as), and Cell.lit s for any other string (operation name, the
  true/false error flag, error messages).
- The network is modelled by ConnEnv, one value per operation call: the
  outcome of the dial, of the single buffered read, of the SetDeadline call
  inside ReadFromServer, and of the up-to-two explicit Close attempts.
- Besides the values the Go functions return, each embedded operation also
  reports its observable side effects: the payload written to the socket,
  the ordered list of stages it attempted, the number of explicit Close
  calls of its teardown sequence, and the message of a run-time panic where
  the Go code would crash instead of returning.
-/

/-- Go error values are modelled by their message strings. -/
abbrev GoErr := String

/-- One cell of a timing record: a current timestamp, the zero-value
timestamp, or an ordinary string literal. -/
inductive Cell where
  | nowT
  | zeroT
  | lit (s : String)
deriving DecidableEq

/-- A timing record is the []string built incrementally by each operation. -/
abbrev Record := List Cell

/-- Outcome of the buffered ReadString call inside ReadFromServer: a line
with nil error, a partial read ending in io.EOF, or any other read error. -/
inductive ReadRes where
  | ok (s : String)
  | eof (s : String)
  | fail (msg : GoErr)
deriving DecidableEq

/-- The environment of one operation call: results of the dial, of the
SetDeadline call inside ReadFromServer, of the read, and of the first and
second explicit Close attempts. -/
structure ConnEnv where
  connectErr : Option GoErr
  readDeadlineErr : Option GoErr
  read : ReadRes
  close1Err : Option GoErr
  close2Err : Option GoErr
deriving DecidableEq

/-- The stages an operation can attempt, in the order the source composes
them. -/
inductive Stage where
  | connect
  | write
  | read
  | close
  | decode
deriving DecidableEq

/-- The full stage chain of a reading operation. -/
def opStageChain : List Stage := [.connect, .write, .read, .close, .decode]

/-- The constant getQueue request payload (var getQueueXML in src/rtc.go). -/
def getQueueXML : String := "<src><getQueue/></src>"

/-- The argument of QueueWash (struct WashRequest in src/rtc.go). -/
structure WashRequest where
  laneID : String
  orderID : String
  vehicleID : String
  vehicleKey : String
  washPackage : Int
deriving DecidableEq

/-- The wire shape xml.Marshal produces for AddQueueRequest. -/
def addTailXML (washPackage : Int) : String :=
  "<src><addTail><washPkgNum>" ++ toString washPackage ++ "</washPkgNum></addTail></src>"

/-- BuildAddTailXML.  xml.Marshal of AddQueueRequest (a struct of an xml.Name
and an int) cannot fail, so the error branch of the source is dead; the
embedding is total with the same Except shape as the source signature. -/
def BuildAddTailXML (washPackage : Int) : Except GoErr String :=
  .ok (addTailXML washPackage)

/-- The wire shape xml.Marshal produces for MoveWashRequest. -/
def moveXML (washID toBefore : Int) : String :=
  "<src><move><id>" ++ toString washID ++ "</id><before>" ++ toString toBefore
    ++ "</before></move></src>"

/-- BuildMoveXML; as with BuildAddTailXML the marshal cannot fail. -/
def BuildMoveXML (washID toBefore : Int) : Except GoErr String :=
  .ok (moveXML washID toBefore)

/-- The wire shape xml.Marshal produces for DeleteWashRequest. -/
def deleteXML (washID : Int) : String :=
  "<src><delete><id>" ++ toString washID ++ "</id></delete></src>"

/-- BuildDeleteXML; the marshal cannot fail. -/
def BuildDeleteXML (washID : Int) : Except GoErr String :=
  .ok (deleteXML washID)

/-- Decoded enqueue response (struct AddQueueResponse in src/rtc.go). -/
structure AddQueueResponse where
  washID : Int
deriving DecidableEq

/-- One entry of a decoded queue listing (struct WashQueueItem). -/
structure WashQueueItem where
  washID : Int
  state : String
  position : Int
  washPkgNum : Int
deriving DecidableEq

/-- The car list of a decoded queue listing (struct WashQueue). -/
structure WashQueue where
  queueItems : List WashQueueItem
deriving DecidableEq

/-- Decoded queue response (struct GetQueueResponse). -/
structure GetQueueResponse where
  queue : WashQueue
deriving DecidableEq

/-- Strip the pattern from the front of the list, returning the remainder;
none when the list does not start with the pattern. -/
def stripPat : List Char → List Char → Option (List Char)
  | [], rest => some rest
  | _ :: _, [] => none
  | p :: ps, c :: cs => if p = c then stripPat ps cs else none

/-- Split a list at the first occurrence of the pattern sep: the part
before and the part after the pattern; none when sep does not occur. -/
def splitFirst (sep : List Char) : List Char → Option (List Char × List Char)
  | [] =>
    match stripPat sep [] with
    | some rest => some ([], rest)
    | none => none
  | c :: cs =>
    match stripPat sep (c :: cs) with
    | some rest => some ([], rest)
    | none =>
      match splitFirst sep cs with
      | some (before, rest) => some (c :: before, rest)
      | none => none

/-- The pieces of a list around the occurrences of sep, first piece first -
the semantics of strings.Split.  Recursion is fuelled; a fuel of the list
length plus one suffices for any non-empty sep. -/
def splitOnChars (sep : List Char) : Nat → List Char → List (List Char)
  | 0, l => [l]
  | fuel + 1, l =>
    match splitFirst sep l with
    | none => [l]
    | some (before, rest) => before :: splitOnChars sep fuel rest

/-- Value of a non-empty all-digit list of chars; none otherwise. -/
def digitsToNatAux : Nat → List Char → Option Nat
  | acc, [] => some acc
  | acc, c :: cs =>
    if 48 ≤ c.toNat ∧ c.toNat ≤ 57 then digitsToNatAux (acc * 10 + (c.toNat - 48)) cs
    else none

/-- Digits of a decimal numeral to a number; none on empty or non-digit
input. -/
def digitsToNat : List Char → Option Nat
  | [] => none
  | cs => digitsToNatAux 0 cs

/-- A signed integer numeral, as encoding/xml parses an int field. -/
def charsToInt : List Char → Option Int
  | '-' :: rest => (digitsToNat rest).map (fun n => -(n : Int))
  | cs => (digitsToNat cs).map (fun n => (n : Int))

/-- The whitespace strings.TrimSpace removes at both ends. -/
def isSpaceChar (c : Char) : Bool :=
  c == ' ' || c == '\n' || c == '\t' || c == '\r'

/-- strings.TrimSpace. -/
def trimSpace (s : String) : String :=
  String.mk (((s.data.dropWhile isSpaceChar).reverse.dropWhile isSpaceChar).reverse)

/-- Helper for the xml.Unmarshal model: the text strictly between the first
occurrence of pre and the following occurrence of post. -/
def extractBetween (s : List Char) (pre post : String) : Option (List Char) :=
  match splitFirst pre.data s with
  | some (_, afterPre) =>
    match splitFirst post.data afterPre with
    | some (inner, _) => some inner
    | none => none
  | none => none

/-- ParseRTCAddQueueResponse models xml.Unmarshal into AddQueueResponse,
specialised to the documents this system exchanges: empty input yields the
io.EOF error (message EOF), a document carrying a carAdded id yields that id,
and anything else yields a decode error. -/
def ParseRTCAddQueueResponse (message : String) : Except GoErr AddQueueResponse :=
  if message = "" then .error "EOF"
  else
    match extractBetween message.data "<carAdded><id>" "</id>" with
    | some v =>
      match charsToInt v with
      | some n => .ok { washID := n }
      | none => .error "strconv: cannot parse carAdded id"
    | none => .error "xml: message does not match AddQueueResponse"

/-- Parse one car element of a queue listing. -/
def parseCar (s : List Char) : Option WashQueueItem := do
  let i ← extractBetween s "<id>" "</id>"
  let st ← extractBetween s "<state>" "</state>"
  let p ← extractBetween s "<position>" "</position>"
  let w ← extractBetween s "<washPkgNum>" "</washPkgNum>"
  let iN ← charsToInt i
  let pN ← charsToInt p
  let wN ← charsToInt w
  pure { washID := iN, state := String.mk st, position := pN, washPkgNum := wN }

/-- ParseRTCGetQueueResponse models xml.Unmarshal into GetQueueResponse,
specialised to the documents this system exchanges: empty input yields the
io.EOF error (message EOF), a document with a queue element yields its car
entries in document order, and anything else yields a decode error. -/
def ParseRTCGetQueueResponse (message : String) : Except GoErr GetQueueResponse :=
  if message = "" then .error "EOF"
  else
    match splitFirst "<queue".data message.data with
    | some _ =>
      match ((splitOnChars "<car>".data (message.data.length + 1) message.data).drop 1).mapM
          parseCar with
      | some items => .ok { queue := { queueItems := items } }
      | none => .error "xml: message does not match GetQueueResponse"
    | none => .error "xml: message does not match GetQueueResponse"

/-- ReadFromServer.  The source binds err to the SetDeadline result, reads a
line, and in the branch for a non-EOF read failure returns (nil, err) - the
deadline error, not the read error - exactly as embedded here.  An EOF read
falls through and returns the trimmed partial line with a nil error. -/
def ReadFromServer (env : ConnEnv) : Option String × Option GoErr :=
  match env.read with
  | .fail _ => (none, env.readDeadlineErr)
  | .ok s => (some (trimSpace s), none)
  | .eof s => (some (trimSpace s), none)

/-- closeConnection: first Close, and on failure a deadline force, a grace
sleep and exactly one retried Close.  Returns the error outcome of the
sequence together with the number of explicit Close calls it made. -/
def closeConnection (env : ConnEnv) : Option GoErr × Nat :=
  match env.close1Err with
  | none => (none, 1)
  | some _ =>
    match env.close2Err with
    | none => (none, 2)
    | some e2 => (some e2, 2)

/-- The value component of a Go (value, error) pair modelled as an Except:
some value on ok, the nil pointer on error. -/
def respOf {α : Type} : Except GoErr α → Option α
  | .ok a => some a
  | .error _ => none

/-- The error component of a Go (value, error) pair modelled as an Except. -/
def errOf {α : Type} : Except GoErr α → Option GoErr
  | .ok _ => none
  | .error e => some e

/-- The handle QueueWash extracts from its decode result: the decoded id on
success, minus one when the decode failed (the source then returns -1 with a
nil error). -/
def washIDOf : Except GoErr AddQueueResponse → Int
  | .ok addResponse => addResponse.washID
  | .error _ => -1

/-- Result of QueueWash: the returned handle (minus one on every failure or
missing id), the timing record, the returned error, plus the observable side
effects (payload written, stages attempted, explicit Close calls made). -/
structure QueueOut where
  washID : Int
  record : Record
  err : Option GoErr
  wrote : Option String
  stages : List Stage
  closeAttempts : Nat
deriving DecidableEq

/-- QueueWash (second evolution, src/rtc.go lines 431-501).  Encodes a
hard-coded package number 1 regardless of its argument, dials, writes, reads,
closes with a single retry, then decodes; a nil read message short-circuits
through closeConnection and, when that close fails, appends the error cells
and then unconditionally appends the success cells as well; a decode failure
is swallowed (nil error, handle minus one). -/
def QueueWash (washRequest : WashRequest) (env : ConnEnv) : QueueOut :=
  let record : Record := [.lit "QUEUE"]
  match BuildAddTailXML 1 with
  | .error xmlErr =>
    { washID := -1,
      record := record ++ [.zeroT, .zeroT, .zeroT, .zeroT, .lit "true", .lit xmlErr],
      err := some xmlErr, wrote := none, stages := [], closeAttempts := 0 }
  | .ok queueXML =>
    match env.connectErr with
    | some connectErr =>
      { washID := -1,
        record := record ++ [.nowT, .zeroT, .zeroT, .nowT, .lit "true", .lit connectErr],
        err := some connectErr, wrote := none, stages := [.connect], closeAttempts := 0 }
    | none =>
      let record := record ++ [.nowT]
      let record := record ++ [.nowT]
      match ReadFromServer env with
      | (_, some readErr) =>
        { washID := -1,
          record := record ++ [.zeroT, .nowT, .lit "true", .lit readErr],
          err := some readErr, wrote := some queueXML,
          stages := [.connect, .write, .read], closeAttempts := 0 }
      | (none, none) =>
        match closeConnection env with
        | (some e, n) =>
          { washID := -1,
            record := (record ++ [.nowT, .nowT, .lit "true", .lit e])
              ++ [.nowT, .nowT, .lit "false", .lit ""],
            err := none, wrote := some queueXML,
            stages := [.connect, .write, .read, .close], closeAttempts := n }
        | (none, n) =>
          { washID := -1,
            record := record ++ [.nowT, .nowT, .lit "false", .lit ""],
            err := none, wrote := some queueXML,
            stages := [.connect, .write, .read, .close], closeAttempts := n }
      | (some message, none) =>
        let record := record ++ [.nowT]
        let finish := fun (record : Record) (n : Nat) =>
          let record := record ++ [.nowT, .lit "false", .lit ""]
          { washID := washIDOf (ParseRTCAddQueueResponse message),
            record := record, err := none, wrote := some queueXML,
            stages := opStageChain, closeAttempts := n : QueueOut }
        match env.close1Err with
        | none => finish record 1
        | some _ =>
          match env.close2Err with
          | some closeErr =>
            { washID := -1,
              record := record ++ [.nowT, .lit "true", .lit closeErr],
              err := some closeErr, wrote := some queueXML,
              stages := [.connect, .write, .read, .close], closeAttempts := 2 }
          | none => finish record 2

/-- The argument of MoveWash (struct MoveWashReqParams in src/rtc.go). -/
structure MoveWashReqParams where
  washID : Int
  toBefore : Int
deriving DecidableEq

/-- Result of MoveWash: decoded queue response pointer, record, error, and
the observable side effects. -/
structure MoveOut where
  resp : Option GetQueueResponse
  record : Record
  err : Option GoErr
  stages : List Stage
  closeAttempts : Nat
deriving DecidableEq

/-- MoveWash (second evolution, src/rtc.go lines 528-596).  Same shape as
QueueWash; the decode error of the final ParseRTCGetQueueResponse is
returned as the result error together with the completed record. -/
def MoveWash (moveRequest : MoveWashReqParams) (env : ConnEnv) : MoveOut :=
  let record : Record := [.lit "MOVE"]
  match BuildMoveXML moveRequest.washID moveRequest.toBefore with
  | .error xmlErr =>
    { resp := none,
      record := record ++ [.nowT, .zeroT, .zeroT, .nowT, .lit "true", .lit xmlErr],
      err := some xmlErr, stages := [], closeAttempts := 0 }
  | .ok _moveXML =>
    match env.connectErr with
    | some connectErr =>
      { resp := none,
        record := record ++ [.nowT, .zeroT, .zeroT, .nowT, .lit "true", .lit connectErr],
        err := some connectErr, stages := [.connect], closeAttempts := 0 }
    | none =>
      let record := record ++ [.nowT]
      let record := record ++ [.nowT]
      match ReadFromServer env with
      | (_, some readErr) =>
        { resp := none,
          record := record ++ [.zeroT, .nowT, .lit "true", .lit readErr],
          err := some readErr, stages := [.connect, .write, .read], closeAttempts := 0 }
      | (none, none) =>
        match closeConnection env with
        | (some e, n) =>
          { resp := none,
            record := (record ++ [.nowT, .nowT, .lit "true", .lit e])
              ++ [.nowT, .nowT, .lit "false", .lit ""],
            err := none, stages := [.connect, .write, .read, .close], closeAttempts := n }
        | (none, n) =>
          { resp := none,
            record := record ++ [.nowT, .nowT, .lit "false", .lit ""],
            err := none, stages := [.connect, .write, .read, .close], closeAttempts := n }
      | (some readMessage, none) =>
        let record := record ++ [.nowT]
        let finish := fun (record : Record) (n : Nat) =>
          let record := record ++ [.nowT, .lit "false", .lit ""]
          { resp := respOf (ParseRTCGetQueueResponse readMessage),
            record := record, err := errOf (ParseRTCGetQueueResponse readMessage),
            stages := opStageChain, closeAttempts := n : MoveOut }
        match env.close1Err with
        | none => finish record 1
        | some _ =>
          match env.close2Err with
          | some closeErr =>
            { resp := none,
              record := record ++ [.nowT, .lit "true", .lit closeErr],
              err := some closeErr, stages := [.connect, .write, .read, .close],
              closeAttempts := 2 }
          | none => finish record 2

/-- Message of the run-time crash Go raises on a nil pointer dereference. -/
def nilDereference : String :=
  "runtime error: invalid memory address or nil pointer dereference"

/-- The crash GetQueue suffers right before returning: its final log call
dereferences the decode result, which is nil exactly when the decode
failed. -/
def decodeCrash : Except GoErr GetQueueResponse → Option String
  | .ok _ => none
  | .error _ => some nilDereference

/-- Result of GetQueue.  panicMsg is set on the path where the source
dereferences the nil decode result in its final log call and crashes
instead of returning; the remaining cells then hold the values the
function had built up to that point. -/
structure GetOut where
  resp : Option GetQueueResponse
  record : Record
  err : Option GoErr
  stages : List Stage
  closeAttempts : Nat
  panicMsg : Option String
deriving DecidableEq

/-- GetQueue (second evolution, src/rtc.go lines 690-746).  After a
successful close it decodes the message and then unconditionally logs
message.Queue, which dereferences a nil pointer whenever the decode failed. -/
def GetQueue (env : ConnEnv) : GetOut :=
  let record : Record := [.lit "GET"]
  match env.connectErr with
  | some connectErr =>
    { resp := none,
      record := record ++ [.nowT, .zeroT, .zeroT, .nowT, .lit "true", .lit connectErr],
      err := some connectErr, stages := [.connect], closeAttempts := 0, panicMsg := none }
  | none =>
    let record := record ++ [.nowT]
    let record := record ++ [.nowT]
    match ReadFromServer env with
    | (_, some readErr) =>
      { resp := none,
        record := record ++ [.zeroT, .zeroT, .lit "true", .lit readErr],
        err := some readErr, stages := [.connect, .write, .read], closeAttempts := 0,
        panicMsg := none }
    | (none, none) =>
      match closeConnection env with
      | (some e, n) =>
        { resp := none,
          record := (record ++ [.nowT, .nowT, .lit "true", .lit e])
            ++ [.nowT, .nowT, .lit "false", .lit ""],
          err := none, stages := [.connect, .write, .read, .close], closeAttempts := n,
          panicMsg := none }
      | (none, n) =>
        { resp := none,
          record := record ++ [.nowT, .nowT, .lit "false", .lit ""],
          err := none, stages := [.connect, .write, .read, .close], closeAttempts := n,
          panicMsg := none }
    | (some readMessage, none) =>
      let record := record ++ [.nowT]
      let finish := fun (record : Record) (n : Nat) =>
        let record := record ++ [.nowT, .lit "false", .lit ""]
        { resp := respOf (ParseRTCGetQueueResponse readMessage),
          record := record, err := errOf (ParseRTCGetQueueResponse readMessage),
          stages := opStageChain, closeAttempts := n,
          panicMsg := decodeCrash (ParseRTCGetQueueResponse readMessage) : GetOut }
      match env.close1Err with
      | none => finish record 1
      | some _ =>
        match env.close2Err with
        | some closeErr =>
          { resp := none,
            record := record ++ [.zeroT, .lit "true", .lit closeErr],
            err := some closeErr, stages := [.connect, .write, .read, .close],
            closeAttempts := 2, panicMsg := none }
        | none => finish record 2

/-- Result of DeleteQueuedCar. -/
structure DeleteOut where
  record : Record
  err : Option GoErr
  stages : List Stage
  closeAttempts : Nat
deriving DecidableEq

/-- DeleteQueuedCar (second evolution, src/rtc.go lines 616-660).  It writes
the delete request and closes without ever reading or decoding a response;
the command-initiated and command-retrieved cells are appended together
right after the write. -/
def DeleteQueuedCar (washID : Int) (env : ConnEnv) : DeleteOut :=
  let record : Record := [.lit "DELETE"]
  match BuildDeleteXML washID with
  | .error xmlErr =>
    { record := record ++ [.nowT, .zeroT, .zeroT, .nowT, .lit "true", .lit xmlErr],
      err := some xmlErr, stages := [], closeAttempts := 0 }
  | .ok _deleteXML =>
    match env.connectErr with
    | some connectErr =>
      { record := record ++ [.nowT, .zeroT, .zeroT, .nowT, .lit "true", .lit connectErr],
        err := some connectErr, stages := [.connect], closeAttempts := 0 }
    | none =>
      let record := record ++ [.nowT]
      let record := record ++ [.nowT, .nowT]
      match env.close1Err with
      | none =>
        { record := record ++ [.nowT, .lit "false", .lit ""],
          err := none, stages := [.connect, .write, .close], closeAttempts := 1 }
      | some _ =>
        match env.close2Err with
        | some closeErr =>
          { record := record ++ [.nowT, .lit "true", .lit closeErr],
            err := some closeErr, stages := [.connect, .write, .close], closeAttempts := 2 }
        | none =>
          { record := record ++ [.nowT, .lit "false", .lit ""],
            err := none, stages := [.connect, .write, .close], closeAttempts := 2 }

/-- Writer.Write (src/main.go lines 83-95), the Result Sink consumer loop,
over the finite sequence of records delivered on the Records channel before
the Done signal.  The select guard receives one record from the channel and
discards it; the loop body then receives the next record and writes that
one.  With fewer than two deliverable records the loop blocks in the body
(modelled by producing nothing further).  Returns the records actually
written to the csv. -/
def writerWrite : List Record → List Record
  | _discarded :: received :: rest => received :: writerWrite rest
  | _ => []

/-- The client operations a routine iteration can invoke. -/
inductive RTCCall where
  | queueWash
  | getQueue
  | moveWash
  | deleteQueuedCar
deriving DecidableEq

/-- rand.Intn: crashes on a non-positive bound, otherwise some value below
the bound (the draw itself is irrelevant to the claims and is modelled from
an abstract seed). -/
def randIntn (seed n : Nat) : Except GoErr Nat :=
  if n = 0 then .error "invalid argument to Intn" else .ok (seed % n)

/-- Environment of one MoveRoutine tick: one connection environment per
client call plus the seed of the per-call reseeded random source. -/
structure MoveIterEnv where
  queueEnv : ConnEnv
  getEnv : ConnEnv
  moveEnv : ConnEnv
  deleteEnv : ConnEnv
  randSeed : Nat
deriving DecidableEq

/-- Observable outcome of one MoveRoutine tick: the records handed to the
Result Sink in order, the client calls made in order, and the message of a
crash when the tick does not complete. -/
structure MoveIterOut where
  sent : List Record
  calls : List RTCCall
  panicMsg : Option String
deriving DecidableEq

/-- The fixed synthetic request both the queue and the move routines build
each tick (VehicleKey is left at its zero value). -/
def loadTestRequest : WashRequest :=
  { laneID := "4", orderID := "LOAD-TESTING", vehicleID := "NO-VALID-ID",
    vehicleKey := "", washPackage := 1 }

/-- One tick of MoveRoutine.Run (src/main.go lines 437-491): QueueWash, send
its record; on success GetQueue; on GetQueue error send its record and stop;
on a nil queue pointer stop without sending its record; otherwise send it,
draw a random position below the queue length (crashing when the queue is
empty), MoveWash, send, DeleteQueuedCar, send. -/
def moveIteration (env : MoveIterEnv) : MoveIterOut :=
  let q := QueueWash loadTestRequest env.queueEnv
  match q.err with
  | some _ => { sent := [q.record], calls := [.queueWash], panicMsg := none }
  | none =>
    let g := GetQueue env.getEnv
    match g.panicMsg with
    | some p => { sent := [q.record], calls := [.queueWash, .getQueue], panicMsg := some p }
    | none =>
      match g.err with
      | some _ =>
        { sent := [q.record, g.record], calls := [.queueWash, .getQueue], panicMsg := none }
      | none =>
        match g.resp with
        | none =>
          { sent := [q.record], calls := [.queueWash, .getQueue], panicMsg := none }
        | some queue =>
          let numWashes := queue.queue.queueItems.length
          match randIntn env.randSeed numWashes with
          | .error p =>
            { sent := [q.record, g.record], calls := [.queueWash, .getQueue],
              panicMsg := some p }
          | .ok before =>
            let m := MoveWash { washID := q.washID, toBefore := Int.ofNat before } env.moveEnv
            let d := DeleteQueuedCar q.washID env.deleteEnv
            { sent := [q.record, g.record, m.record, d.record],
              calls := [.queueWash, .getQueue, .moveWash, .deleteQueuedCar],
              panicMsg := none }

/-- Decimal numeral parts: negative flag, integer digits, fraction digits,
count of fraction digits.  Models strconv.ParseFloat restricted to plain
decimal numerals (optional minus sign, digits, optional dot and digits);
exponent forms, Inf and NaN, bare dots at either end and float32 rounding
are outside this model - the interval claims only concern plain numerals. -/
def parseDecimalParts (s : String) : Option (Bool × Nat × Nat × Nat) :=
  let signBody : Bool × List Char :=
    match s.data with
    | '-' :: rest => (true, rest)
    | cs => (false, cs)
  if signBody.2 = [] then none
  else
    match splitOnChars ['.'] (signBody.2.length + 1) signBody.2 with
    | [intPart] => (digitsToNat intPart).map (fun n => (signBody.1, n, 0, 0))
    | [intPart, fracPart] =>
      match digitsToNat intPart, digitsToNat fracPart with
      | some i, some f => some (signBody.1, i, f, fracPart.length)
      | _, _ => none
    | _ => none

/-- The exact rational value of decimal numeral parts. -/
def partsToRat : Bool × Nat × Nat × Nat → ℚ
  | (neg, i, f, k) =>
    let v : ℚ := (i : ℚ) + (f : ℚ) / ((10 : ℚ) ^ k)
    if neg then -v else v

/-- The value strconv.ParseFloat yields on a plain decimal numeral. -/
def parseDecimal (s : String) : Option ℚ :=
  (parseDecimalParts s).map partsToRat

/-- UpdateTime (identical bodies at src/main.go lines 321-351, 387-417 and
493-523).  Parses the requested interval; on failure the error is returned.
On success the parsed number t is printed with a unit suffix chosen by
magnitude - ns below 0.001, us below 0.01, ms below 1, s otherwise - and
fed to time.ParseDuration, without rescaling the numeral to the chosen
unit.  The resulting ticker period is returned in nanoseconds.  The
Done-channel signal and the ticker object are not modelled; the second
ParseDuration cannot fail on these printed strings. -/
def UpdateTime (tickerTime : String) : Except GoErr ℚ :=
  match parseDecimal tickerTime with
  | none => .error "strconv.ParseFloat: parsing: invalid syntax"
  | some t =>
    if t < 1 then
      if t < 1/1000 then .ok t
      else if t < 1/100 then .ok (t * 1000)
      else .ok (t * 1000000)
    else .ok (t * 1000000000)

/-- Routines.UpdateQueueTime (src/main.go lines 194-206): with an empty path
parameter the handler answers 400 and leaves the ticker alone (none);
otherwise it calls UpdateTime and, when that fails, installs the default
two-second ticker.  Returns the period in nanoseconds of the ticker the
routine ends up with. -/
def UpdateQueueTime (seconds : String) : Option ℚ :=
  if seconds = "" then none
  else
    match UpdateTime seconds with
    | .error _ => some (2 * 1000000000)
    | .ok d => some d

/-- A dial failure, as when the controller is unreachable. -/
def envConnFail : ConnEnv :=
  { connectErr := some "dial tcp 192.168.1.80:20250: i/o timeout",
    readDeadlineErr := none, read := .ok "", close1Err := none, close2Err := none }

/-- A non-EOF read failure (deadline exceeded) with a successful SetDeadline
call; ReadFromServer then returns a nil message with a nil error. -/
def envNilRead : ConnEnv :=
  { connectErr := none, readDeadlineErr := none,
    read := .fail "read tcp: i/o timeout", close1Err := none, close2Err := none }

/-- The same read failure, with both explicit Close attempts failing too. -/
def envNilReadCloseFail : ConnEnv :=
  { connectErr := none, readDeadlineErr := none,
    read := .fail "read tcp: i/o timeout",
    close1Err := some "use of closed network connection",
    close2Err := some "use of closed network connection" }

/-- End-of-stream with zero bytes and no other error. -/
def envEofRead : ConnEnv :=
  { connectErr := none, readDeadlineErr := none, read := .eof "",
    close1Err := none, close2Err := none }

/-- A successful read of a line no decoder accepts. -/
def envReadOkX : ConnEnv :=
  { connectErr := none, readDeadlineErr := none, read := .ok "x",
    close1Err := none, close2Err := none }

/-- A successful read with the first Close failing and the retry
succeeding. -/
def envClose1Fail : ConnEnv :=
  { connectErr := none, readDeadlineErr := none, read := .ok "x",
    close1Err := some "close failed", close2Err := none }

/-- A successful read of a queue listing with zero entries. -/
def envEmptyQueue : ConnEnv :=
  { connectErr := none, readDeadlineErr := none,
    read := .ok "<tc><queue></queue></tc>", close1Err := none, close2Err := none }

/-- A MoveRoutine tick in which the enqueue succeeds and the listing comes
back with zero entries. -/
def moveIterZeroQueue : MoveIterEnv :=
  { queueEnv := envEofRead, getEnv := envEmptyQueue, moveEnv := envEofRead,
    deleteEnv := envEofRead, randSeed := 0 }

/-- A MoveRoutine tick in which the enqueue succeeds and GetQueue returns a
nil queue pointer with a nil error. -/
def moveIterNilQueue : MoveIterEnv :=
  { queueEnv := envEofRead, getEnv := envNilRead, moveEnv := envEofRead,
    deleteEnv := envEofRead, randSeed := 0 }

/-- C1: the claim that every Timing Record of the four client operations has
exactly 7 cells fails on the code: when ReadFromServer yields a nil message
with a nil error and both explicit Close attempts then fail, QueueWash
appends the four error cells and afterwards unconditionally appends the four
success cells as well, returning an eleven-cell record (with a nil error, so
the record is handed on as a normal result). -/
theorem C1_record_eleven_cells :
    (QueueWash loadTestRequest envNilReadCloseFail).record.length = 11 ∧
    (QueueWash loadTestRequest envNilReadCloseFail).err = none := by decide

/-- C2: the claim that every record enqueued to the Result Sink is persisted
fails on the code: the consumer loop discards the record received by its
select guard and writes only the record of its second receive, so of two
enqueued records only the second is written; moreover the move routine makes
a GetQueue call whose record it never hands to the Sink when the returned
queue pointer is nil. -/
theorem C2_sink_discards_records :
    writerWrite [[Cell.lit "a"], [Cell.lit "b"]] = [[Cell.lit "b"]] ∧
    (moveIteration moveIterNilQueue).calls = [.queueWash, .getQueue] ∧
    (moveIteration moveIterNilQueue).sent.length = 1 := by decide

/-- C3: the claim that a zero-entry listing after a successful enqueue leads
to the handle still being deleted without a crash fails on the code: the
move routine draws rand.Intn of the queue length, which is zero, so the tick
crashes before MoveWash and before DeleteQueuedCar ever run. -/
theorem C3_zero_entry_listing_crashes :
    (moveIteration moveIterZeroQueue).panicMsg = some "invalid argument to Intn" ∧
    RTCCall.moveWash ∉ (moveIteration moveIterZeroQueue).calls ∧
    RTCCall.deleteQueuedCar ∉ (moveIteration moveIterZeroQueue).calls := by decide

/-- C4: the claim that end-of-stream with zero bytes is reported as success
with no parsed payload fails on the code: ReadFromServer returns a non-nil
empty string on EOF, so the nil-message short cut is never taken; MoveWash
then parses the empty string and returns the decode error EOF as its result,
and GetQueue crashes dereferencing the nil decode result in its final log
call. -/
theorem C4_empty_read_not_success :
    ReadFromServer envEofRead = (some "", none) ∧
    (MoveWash { washID := 1, toBefore := 0 } envEofRead).err = some "EOF" ∧
    (GetQueue envEofRead).panicMsg = some nilDereference := by decide

/-- C5: the claim that a non-EOF read failure is returned as a ReadError
with an error-flagged record fails on the code: ReadFromServer returns the
SetDeadline error variable instead of the read error, so when the deadline
call succeeded the operation sees a nil message with a nil error and
returns a success-flagged record with no error at all. -/
theorem C5_read_error_swallowed :
    ReadFromServer envNilRead = (none, none) ∧
    (GetQueue envNilRead).err = none ∧
    (GetQueue envNilRead).record =
      [Cell.lit "GET", .nowT, .nowT, .nowT, .nowT, .lit "false", .lit ""] := by decide

/-- C6 counterexample: on a connect failure the second record cell (the
Connected timestamp) is a current timestamp, not an empty or zero value as
the claim states. -/
theorem C6_counterexample :
    ((QueueWash loadTestRequest envConnFail).record)[1]? = some Cell.nowT ∧
    Cell.nowT ≠ Cell.zeroT := by decide

/-- C6 amended: when the dial fails every operation returns the seven-cell
record [name, now, zero, zero, now, true, message]: the two middle
timestamps (command-issued and response-retrieved) are zero-value but the
Connected and Closed cells carry current timestamps. -/
theorem C6_connect_failure_record (env : ConnEnv) (m : GoErr) (req : WashRequest)
    (p : MoveWashReqParams) (washID : Int) (h : env.connectErr = some m) :
    (QueueWash req env).record =
      [Cell.lit "QUEUE", .nowT, .zeroT, .zeroT, .nowT, .lit "true", .lit m] ∧
    (MoveWash p env).record =
      [Cell.lit "MOVE", .nowT, .zeroT, .zeroT, .nowT, .lit "true", .lit m] ∧
    (GetQueue env).record =
      [Cell.lit "GET", .nowT, .zeroT, .zeroT, .nowT, .lit "true", .lit m] ∧
    (DeleteQueuedCar washID env).record =
      [Cell.lit "DELETE", .nowT, .zeroT, .zeroT, .nowT, .lit "true", .lit m] := by
  obtain ⟨c, rd, r, c1, c2⟩ := env
  obtain rfl : c = some m := h
  exact ⟨rfl, rfl, rfl, rfl⟩

/-- C6 witness: the amended connect-failure record shape at a concrete
environment. -/
theorem C6_connect_failure_record_witness :
    (QueueWash loadTestRequest envConnFail).record =
      [Cell.lit "QUEUE", .nowT, .zeroT, .zeroT, .nowT, .lit "true",
        .lit "dial tcp 192.168.1.80:20250: i/o timeout"] ∧
    (MoveWash { washID := 1, toBefore := 0 } envConnFail).record =
      [Cell.lit "MOVE", .nowT, .zeroT, .zeroT, .nowT, .lit "true",
        .lit "dial tcp 192.168.1.80:20250: i/o timeout"] ∧
    (GetQueue envConnFail).record =
      [Cell.lit "GET", .nowT, .zeroT, .zeroT, .nowT, .lit "true",
        .lit "dial tcp 192.168.1.80:20250: i/o timeout"] ∧
    (DeleteQueuedCar 7 envConnFail).record =
      [Cell.lit "DELETE", .nowT, .zeroT, .zeroT, .nowT, .lit "true",
        .lit "dial tcp 192.168.1.80:20250: i/o timeout"] :=
  C6_connect_failure_record envConnFail "dial tcp 192.168.1.80:20250: i/o timeout"
    loadTestRequest { washID := 1, toBefore := 0 } 7 rfl

/-- C7 counterexample: DeleteQueuedCar never performs a Read stage or a
decode stage, even on a fully successful run, refuting the claim that all
four operations compose Connect, Write, Read, Close and decode. -/
theorem C7_counterexample :
    Stage.read ∉ (DeleteQueuedCar 7 envReadOkX).stages ∧
    Stage.decode ∉ (DeleteQueuedCar 7 envReadOkX).stages ∧
    (DeleteQueuedCar 7 envReadOkX).err = none := by decide

/-- Whatever the environment, the stages QueueWash attempts are an initial
segment of the Connect-Write-Read-Close-decode chain. -/
theorem queueWash_stages_initial (req : WashRequest) (env : ConnEnv) :
    ∃ k, (QueueWash req env).stages = opStageChain.take k := by
  obtain ⟨c, rd, r, c1, c2⟩ := env
  cases c <;> cases r <;> cases rd <;> cases c1 <;> cases c2 <;>
    first
      | exact ⟨1, rfl⟩
      | exact ⟨3, rfl⟩
      | exact ⟨4, rfl⟩
      | exact ⟨5, rfl⟩

/-- Whatever the environment, the stages MoveWash attempts are an initial
segment of the Connect-Write-Read-Close-decode chain. -/
theorem moveWash_stages_initial (p : MoveWashReqParams) (env : ConnEnv) :
    ∃ k, (MoveWash p env).stages = opStageChain.take k := by
  obtain ⟨c, rd, r, c1, c2⟩ := env
  cases c <;> cases r <;> cases rd <;> cases c1 <;> cases c2 <;>
    first
      | exact ⟨1, rfl⟩
      | exact ⟨3, rfl⟩
      | exact ⟨4, rfl⟩
      | exact ⟨5, rfl⟩

/-- Whatever the environment, the stages GetQueue attempts are an initial
segment of the Connect-Write-Read-Close-decode chain. -/
theorem getQueue_stages_initial (env : ConnEnv) :
    ∃ k, (GetQueue env).stages = opStageChain.take k := by
  obtain ⟨c, rd, r, c1, c2⟩ := env
  cases c <;> cases r <;> cases rd <;> cases c1 <;> cases c2 <;>
    first
      | exact ⟨1, rfl⟩
      | exact ⟨3, rfl⟩
      | exact ⟨4, rfl⟩
      | exact ⟨5, rfl⟩

/-- Whatever the environment, the stages DeleteQueuedCar attempts are an
initial segment of the Connect-Write-Close chain. -/
theorem delete_stages_initial (washID : Int) (env : ConnEnv) :
    ∃ k, (DeleteQueuedCar washID env).stages
      = [Stage.connect, Stage.write, Stage.close].take k := by
  obtain ⟨c, rd, r, c1, c2⟩ := env
  cases c <;> cases r <;> cases rd <;> cases c1 <;> cases c2 <;>
    first
      | exact ⟨1, rfl⟩
      | exact ⟨3, rfl⟩

/-- C7 amended: the enqueue, move and list operations compose Connect,
Write, Read, Close and decode in that order, while delete composes Connect,
Write and Close with no read and no decode; every failure path
short-circuits, leaving an initial segment of the respective chain; a decode
failure after a successful read re-runs no network stage, and move returns
the decode error as its result error together with the completed seven-cell
record. -/
theorem C7_stage_order (env : ConnEnv) (req : WashRequest) (p : MoveWashReqParams)
    (washID : Int) (s e : String)
    (hc : env.connectErr = none) (hr : env.read = .ok s) (h1 : env.close1Err = none)
    (hp : errOf (ParseRTCGetQueueResponse (trimSpace s)) = some e) :
    (QueueWash req env).stages = opStageChain ∧
    (MoveWash p env).stages = opStageChain ∧
    (GetQueue env).stages = opStageChain ∧
    (DeleteQueuedCar washID env).stages = [Stage.connect, Stage.write, Stage.close] ∧
    (MoveWash p env).err = some e ∧
    (MoveWash p env).record.length = 7 ∧
    (∀ env' : ConnEnv, ∃ k, (QueueWash req env').stages = opStageChain.take k) ∧
    (∀ env' : ConnEnv, ∃ k, (MoveWash p env').stages = opStageChain.take k) ∧
    (∀ env' : ConnEnv, ∃ k, (GetQueue env').stages = opStageChain.take k) ∧
    (∀ env' : ConnEnv, ∃ k, (DeleteQueuedCar washID env').stages
      = [Stage.connect, Stage.write, Stage.close].take k) := by
  obtain ⟨c, rd, r, c1, c2⟩ := env
  obtain rfl : c = none := hc
  obtain rfl : r = .ok s := hr
  obtain rfl : c1 = none := h1
  refine ⟨rfl, rfl, rfl, rfl, ?_, rfl,
    fun env' => queueWash_stages_initial req env',
    fun env' => moveWash_stages_initial p env',
    fun env' => getQueue_stages_initial env',
    fun env' => delete_stages_initial washID env'⟩
  exact hp

/-- C7 witness: the amended stage-order statement at a concrete environment
whose read yields a line no decoder accepts. -/
theorem C7_stage_order_witness :
    (QueueWash loadTestRequest envReadOkX).stages = opStageChain ∧
    (MoveWash { washID := 1, toBefore := 0 } envReadOkX).stages = opStageChain ∧
    (GetQueue envReadOkX).stages = opStageChain ∧
    (DeleteQueuedCar 7 envReadOkX).stages = [Stage.connect, Stage.write, Stage.close] ∧
    (MoveWash { washID := 1, toBefore := 0 } envReadOkX).err =
      some "xml: message does not match GetQueueResponse" ∧
    (MoveWash { washID := 1, toBefore := 0 } envReadOkX).record.length = 7 ∧
    (∀ env' : ConnEnv, ∃ k, (QueueWash loadTestRequest env').stages = opStageChain.take k) ∧
    (∀ env' : ConnEnv, ∃ k,
      (MoveWash { washID := 1, toBefore := 0 } env').stages = opStageChain.take k) ∧
    (∀ env' : ConnEnv, ∃ k, (GetQueue env').stages = opStageChain.take k) ∧
    (∀ env' : ConnEnv, ∃ k, (DeleteQueuedCar 7 env').stages
      = [Stage.connect, Stage.write, Stage.close].take k) :=
  C7_stage_order envReadOkX loadTestRequest { washID := 1, toBefore := 0 } 7 "x"
    "xml: message does not match GetQueueResponse" rfl rfl rfl (by decide)

/-- C8: a non-numeric interval string makes UpdateTime return the parse
error without crashing and the HTTP handler installs the default two-second
ticker - that part of the claim holds - but for the valid numeric string 0.5
the constructed ticker period is 500000 nanoseconds (half a millisecond)
instead of the half second (500000000 nanoseconds) the claim requires: the
source picks a sub-second unit suffix without rescaling the numeral. -/
theorem C8_subsecond_interval_corrupted :
    UpdateTime "abc" = .error "strconv.ParseFloat: parsing: invalid syntax" ∧
    UpdateQueueTime "abc" = some (2 * 1000000000) ∧
    parseDecimal "0.5" = some ((1 : ℚ)/2) ∧
    UpdateTime "0.5" = .ok 500000 ∧
    ((1 : ℚ)/2) * 1000000000 = 500000000 ∧
    (500000 : ℚ) ≠ 500000000 := by
  have habc : parseDecimal "abc" = none := by
    rw [parseDecimal, show parseDecimalParts "abc" = none from by decide]
    rfl
  have hq : parseDecimal "0.5" = some ((1 : ℚ)/2) := by
    rw [parseDecimal, show parseDecimalParts "0.5" = some (false, 0, 5, 1) from by decide,
      Option.map_some']
    norm_num [partsToRat]
  have hUT : UpdateTime "abc" = .error "strconv.ParseFloat: parsing: invalid syntax" := by
    unfold UpdateTime
    rw [habc]
  have h05 : UpdateTime "0.5" = .ok 500000 := by
    unfold UpdateTime
    rw [hq]
    simp only
    rw [if_pos (by norm_num), if_neg (by norm_num), if_neg (by norm_num)]
    exact congrArg Except.ok (by norm_num)
  refine ⟨hUT, ?_, hq, h05, by norm_num, by norm_num⟩
  unfold UpdateQueueTime
  rw [if_neg (by decide), hUT]

/-- C9: for every operation, a failing first Close forces the deadline,
waits the grace period and retries exactly once (one explicit Close call
when the first succeeds, two otherwise); if either attempt succeeds the
final two record cells are the success pair and the enqueue and delete
operations return no error, and only when both attempts fail do the
operations return the second close error, with the error pair closing the
record. -/
theorem C9_close_retry (env : ConnEnv) (washID : Int) (req : WashRequest)
    (p : MoveWashReqParams) (s : String)
    (hc : env.connectErr = none) (hr : env.read = .ok s) :
    ((QueueWash req env).closeAttempts = if env.close1Err = none then 1 else 2) ∧
    ((MoveWash p env).closeAttempts = if env.close1Err = none then 1 else 2) ∧
    ((GetQueue env).closeAttempts = if env.close1Err = none then 1 else 2) ∧
    ((DeleteQueuedCar washID env).closeAttempts = if env.close1Err = none then 1 else 2) ∧
    ((env.close1Err = none ∨ env.close2Err = none) →
      (QueueWash req env).record.drop 5 = [Cell.lit "false", Cell.lit ""] ∧
      (MoveWash p env).record.drop 5 = [Cell.lit "false", Cell.lit ""] ∧
      (GetQueue env).record.drop 5 = [Cell.lit "false", Cell.lit ""] ∧
      (DeleteQueuedCar washID env).record.drop 5 = [Cell.lit "false", Cell.lit ""] ∧
      (QueueWash req env).err = none ∧
      (DeleteQueuedCar washID env).err = none) ∧
    (env.close1Err ≠ none → env.close2Err ≠ none →
      (QueueWash req env).err = env.close2Err ∧
      (MoveWash p env).err = env.close2Err ∧
      (GetQueue env).err = env.close2Err ∧
      (DeleteQueuedCar washID env).err = env.close2Err ∧
      ∃ e2, env.close2Err = some e2 ∧
        (QueueWash req env).record.drop 5 = [Cell.lit "true", Cell.lit e2]) := by
  obtain ⟨c, rd, r, c1, c2⟩ := env
  obtain rfl : c = none := hc
  obtain rfl : r = .ok s := hr
  rcases c1 with _ | e1 <;> rcases c2 with _ | e2
  · exact ⟨rfl, rfl, rfl, rfl,
      fun _ => ⟨rfl, rfl, rfl, rfl, rfl, rfl⟩,
      fun h _ => absurd rfl h⟩
  · exact ⟨rfl, rfl, rfl, rfl,
      fun _ => ⟨rfl, rfl, rfl, rfl, rfl, rfl⟩,
      fun h _ => absurd rfl h⟩
  · exact ⟨rfl, rfl, rfl, rfl,
      fun _ => ⟨rfl, rfl, rfl, rfl, rfl, rfl⟩,
      fun _ h => absurd rfl h⟩
  · exact ⟨rfl, rfl, rfl, rfl,
      fun h => h.elim (fun h' => Option.noConfusion h') (fun h' => Option.noConfusion h'),
      fun _ _ => ⟨rfl, rfl, rfl, rfl, e2, rfl, rfl⟩⟩

/-- C9 witness: the close-retry behaviour at a concrete environment whose
first Close fails and whose retry succeeds. -/
theorem C9_close_retry_witness :
    ((QueueWash loadTestRequest envClose1Fail).closeAttempts
      = if envClose1Fail.close1Err = none then 1 else 2) ∧
    ((MoveWash { washID := 1, toBefore := 0 } envClose1Fail).closeAttempts
      = if envClose1Fail.close1Err = none then 1 else 2) ∧
    ((GetQueue envClose1Fail).closeAttempts
      = if envClose1Fail.close1Err = none then 1 else 2) ∧
    ((DeleteQueuedCar 7 envClose1Fail).closeAttempts
      = if envClose1Fail.close1Err = none then 1 else 2) ∧
    ((envClose1Fail.close1Err = none ∨ envClose1Fail.close2Err = none) →
      (QueueWash loadTestRequest envClose1Fail).record.drop 5
        = [Cell.lit "false", Cell.lit ""] ∧
      (MoveWash { washID := 1, toBefore := 0 } envClose1Fail).record.drop 5
        = [Cell.lit "false", Cell.lit ""] ∧
      (GetQueue envClose1Fail).record.drop 5 = [Cell.lit "false", Cell.lit ""] ∧
      (DeleteQueuedCar 7 envClose1Fail).record.drop 5 = [Cell.lit "false", Cell.lit ""] ∧
      (QueueWash loadTestRequest envClose1Fail).err = none ∧
      (DeleteQueuedCar 7 envClose1Fail).err = none) ∧
    (envClose1Fail.close1Err ≠ none → envClose1Fail.close2Err ≠ none →
      (QueueWash loadTestRequest envClose1Fail).err = envClose1Fail.close2Err ∧
      (MoveWash { washID := 1, toBefore := 0 } envClose1Fail).err
        = envClose1Fail.close2Err ∧
      (GetQueue envClose1Fail).err = envClose1Fail.close2Err ∧
      (DeleteQueuedCar 7 envClose1Fail).err = envClose1Fail.close2Err ∧
      ∃ e2, envClose1Fail.close2Err = some e2 ∧
        (QueueWash loadTestRequest envClose1Fail).record.drop 5
          = [Cell.lit "true", Cell.lit e2]) :=
  C9_close_retry envClose1Fail 7 loadTestRequest { washID := 1, toBefore := 0 } "x" rfl rfl

/-- C10: the observable behaviour of QueueWash does not depend on its
WashRequest argument - the operation encodes the hard-coded package number
1, so any two argument values produce identical outputs, and whenever a
payload is written it is the encoding of package 1. -/
theorem C10_queue_wash_ignores_request (req req' : WashRequest) (env : ConnEnv) :
    QueueWash req env = QueueWash req' env ∧
    ((QueueWash req env).wrote = none ∨ (QueueWash req env).wrote = some (addTailXML 1)) := by
  refine ⟨rfl, ?_⟩
  obtain ⟨c, rd, r, c1, c2⟩ := env
  cases c <;> cases r <;> cases rd <;> cases c1 <;> cases c2 <;>
    first
      | exact Or.inl rfl
      | exact Or.inr rfl
